import Mathlib

/-!
Shallow embedding of the license backend (server.js, license-sign.js, models.js).

The program is an Express server managing software licenses tied to external
payment subscriptions (Mercado Pago preapprovals).  The embedding translates
the license data model and each relevant request handler into pure Lean
functions: database state is an explicit list of licenses, time is an explicit
parameter, and calls to the external payment provider are modelled by boolean
outcome parameters plus an explicit list of attempted external cancellations
returned alongside the new state.
-/

namespace PanelBackend

/-- Embeds the `plan` ENUM of models.js: values "single" and "multi". -/
inductive Plan
  | single
  | multi
deriving DecidableEq, Repr

/-- Embeds the `status` ENUM of models.js:
"inactive", "active", "paused", "cancelled". -/
inductive Status
  | inactive
  | active
  | paused
  | cancelled
deriving DecidableEq, Repr

/-- Embeds a JavaScript Date value as broken-down calendar fields
(year, zero-based month as in JS `getMonth`, day of month, milliseconds
within the day).  The JS engine stores an epoch-milliseconds value; for
normalized calendar fields the epoch order coincides with the lexicographic
order on these fields, which is how comparisons are embedded below. -/
structure JsDate where
  year : Nat
  month : Nat
  day : Nat
  msOfDay : Nat
deriving DecidableEq, Repr

/-- Gregorian leap-year rule, as implemented by JS Date arithmetic. -/
def isLeapYear (y : Nat) : Bool :=
  (y % 4 == 0 && y % 100 != 0) || y % 400 == 0

/-- Days in a zero-based month (JS convention: 0 = January). -/
def daysInMonth (y m : Nat) : Nat :=
  if m = 1 then (if isLeapYear y then 29 else 28)
  else if m = 3 ∨ m = 5 ∨ m = 8 ∨ m = 10 then 30
  else 31

/-- JS Date normalization step: when the day-of-month exceeds the month
length (as after `setMonth`/`setDate` with an out-of-range component), the
excess days roll into the following month.  One step suffices for the
inputs produced here (day at most 31, every month at least 28 days). -/
def rollDayOverflow (d : JsDate) : JsDate :=
  if daysInMonth d.year d.month < d.day then
    let day := d.day - daysInMonth d.year d.month
    if d.month = 11 then { d with year := d.year + 1, month := 0, day := day }
    else { d with month := d.month + 1, day := day }
  else d

/-- Embeds `const exp = new Date(); exp.setMonth(exp.getMonth() + 1)`
(server.js, the authorized-event branches of /webhook and /return):
advance the calendar month by one, with year carry and JS day-overflow
normalization. -/
def setMonthPlus1 (d : JsDate) : JsDate :=
  rollDayOverflow
    (if d.month = 11 then { d with year := d.year + 1, month := 0 }
     else { d with month := d.month + 1 })

/-- Embeds `expiresAt.setDate(expiresAt.getDate() + 1)` (server.js /subscribe:
pending window of one day). -/
def setDatePlus1 (d : JsDate) : JsDate :=
  rollDayOverflow { d with day := d.day + 1 }

/-- Embeds `new Date(a).getTime() < Date.now()`-style comparison of two
dates: lexicographic order on normalized calendar fields, which agrees with
the epoch-milliseconds order used by the JS code. -/
def JsDate.lt (a b : JsDate) : Bool :=
  a.year < b.year ||
    (a.year == b.year && (a.month < b.month ||
      (a.month == b.month && (a.day < b.day ||
        (a.day == b.day && a.msOfDay < b.msOfDay)))))

/-- Embeds the license `features` JSONB column as read by server.js:
only the `whatsapp_bot` and `ai_cameras` flags are consulted
(`Boolean(lic.features?.whatsapp_bot || false)` and likewise). -/
structure Features where
  whatsapp_bot : Bool
  ai_cameras : Bool
deriving DecidableEq, Repr

/-- Embeds the License model of models.js.  `expiresAt` has
`allowNull: false` in the model, so it is total here; `token` and
`mpPreapprovalId` are nullable columns. -/
structure License where
  id : Nat
  userId : Nat
  token : Option String
  plan : Plan
  status : Status
  expiresAt : JsDate
  devices : List String
  mpPreapprovalId : Option String
  features : Features
deriving DecidableEq, Repr

/-- Embeds `function limitForPlan(plan) { return plan === "multi" ? 3 : 1; }`
(server.js line 86). -/
def limitForPlan (plan : Plan) : Nat :=
  if plan == Plan.multi then 3 else 1

/-- Embeds `new Set(array)` followed by `[...set]`: deduplication of a JS
array keeping the first occurrence of each element, in insertion order.
`Set.has` is `contains` on the result and `Set.size` is its length;
`Set.add` of a fresh element appends it at the end. -/
def jsNewSet (l : List String) : List String :=
  l.foldl (fun acc x => if acc.contains x then acc else acc ++ [x]) []

/-- Base-36 digit character, as produced by JS `Number.prototype.toString(36)`:
0-9 then a-z. -/
def base36Char (n : Nat) : Char :=
  if n < 10 then Char.ofNat (48 + n) else Char.ofNat (87 + n)

/-- Base-36 digits of `n`, least significant first, with fuel for structural
termination (fuel `n` is always enough since `n / 36 < n` for `n > 0`). -/
def base36DigitsRev (fuel n : Nat) : List Char :=
  match fuel with
  | 0 => []
  | f + 1 => if n == 0 then [] else base36Char (n % 36) :: base36DigitsRev f (n / 36)

/-- Base-36 rendering of a natural number, as JS `n.toString(36)`. -/
def natToBase36 (n : Nat) : String :=
  if n == 0 then "0" else String.mk (base36DigitsRev (n + 1) n).reverse

/-- Embeds `generateLicenseToken` (server.js lines 87-89):
a string "VS-" + Math.random().toString(36).slice(2, 8) + "-" +
Date.now().toString(36).  The random fragment is modelled as the base-36
rendering of an arbitrary seed `rnd`; the time fragment is the base-36
rendering of the current epoch milliseconds `nowMs`. -/
def generateLicenseToken (rnd nowMs : Nat) : String :=
  "VS-" ++ natToBase36 rnd ++ "-" ++ natToBase36 nowMs

/-- Embeds `License.findOne({ where: { userId, status: "active" } })`
(server.js line 181). -/
def findOneActive (db : List License) (userId : Nat) : Option License :=
  db.find? (fun l => l.userId == userId && l.status == Status.active)

/-- Embeds `License.findOne({ where: { token } })` (server.js lines 472, 529). -/
def findByToken (db : List License) (token : String) : Option License :=
  db.find? (fun l => l.token == some token)

/-- Embeds `lic.save()`: persist the updated license row, replacing the row
with the same primary key. -/
def updateDb (db : List License) (lic : License) : List License :=
  db.map (fun l => if l.id == lic.id then lic else l)

/-- Outcome of the device-attach endpoint (server.js lines 176-197). -/
inductive AttachOutcome
  | badRequest
  | noActiveLicense
  | quotaExceeded (max : Nat)
  | ok (lic : License)
deriving DecidableEq, Repr

/-- Embeds the device-binding core of the attach endpoint (server.js lines
184-191): no-op when the device is already in the set, quota error when the
set is full, otherwise append the device. -/
def attachToLicense (lic : License) (deviceId : String) : AttachOutcome :=
  let max := limitForPlan lic.plan
  let set := jsNewSet lic.devices
  if set.contains deviceId then .ok lic
  else if max ≤ set.length then .quotaExceeded max
  else .ok { lic with devices := set ++ [deviceId] }

/-- Embeds the full POST /license/devices/attach handler (server.js lines
176-197): requires a deviceId, looks up the account's active license, then
runs the device-binding core, saving only when a device was added. -/
def attachHandler (db : List License) (userId : Nat) (deviceId : String) :
    AttachOutcome × List License :=
  if deviceId == "" then (.badRequest, db)
  else
    match findOneActive db userId with
    | none => (.noActiveLicense, db)
    | some lic =>
      let max := limitForPlan lic.plan
      let set := jsNewSet lic.devices
      if set.contains deviceId then (.ok lic, db)
      else if max ≤ set.length then (.quotaExceeded max, db)
      else
        let lic2 := { lic with devices := set ++ [deviceId] }
        (.ok lic2, updateDb db lic2)

/-- Embeds the feature object built by the validate/refresh handlers
(server.js lines 489-493, 539-543): `sync` hard-coded true, the two flags
read from the license. -/
structure JwsFeatures where
  sync : Bool
  whatsapp_bot : Bool
  ai_cameras : Bool
deriving DecidableEq, Repr

/-- Feature object constructed in the handlers from the stored license
features. -/
def featuresOut (f : Features) : JwsFeatures :=
  { sync := true, whatsapp_bot := f.whatsapp_bot, ai_cameras := f.ai_cameras }

/-- Embeds the JWS payload built by `signLicenseJWS` (license-sign.js lines
33-46). -/
structure JwsPayload where
  sub : String
  uid : Nat
  plan : Plan
  sta : Status
  dev : String
  max : Nat
  fea : JwsFeatures
  tok : Option String
  lic : Nat
  ver : Nat
  iat : Nat
  exp : Nat
deriving DecidableEq, Repr

/-- Key-material model for the RS256 keypair of license-sign.js: PEMs are
opaque strings to the program, and the only property the code relies on is
that a signature produced with the private key verifies exactly under the
matching public key.  A keypair is identified by a key id; a private and a
public PEM match when they carry the same id. -/
structure PrivatePem where
  keyId : Nat
deriving DecidableEq, Repr

/-- Public half of a keypair; matches the private half with equal `keyId`. -/
structure PublicPem where
  keyId : Nat
deriving DecidableEq, Repr

/-- Model of an RS256 JWS as produced by `jwt.sign(payload, PRIVATE_PEM,
RS256)`: the payload together with the signing key id and the exact payload
the signature binds (tamper evidence: verification recomputes it). -/
structure Jws where
  payload : JwsPayload
  sigKeyId : Nat
  signedPayload : JwsPayload
deriving DecidableEq, Repr

/-- Embeds `DEFAULT_TTL_SEC = Number(process.env.LICENSE_OFFLINE_TTL_SEC ||
72 * 3600)` (license-sign.js line 6) with the environment variable unset. -/
def DEFAULT_TTL_SEC : Nat := 72 * 3600

/-- Input record of `signLicenseJWS` (license-sign.js line 27). -/
structure SignInput where
  userId : Nat
  licenseId : Nat
  token : Option String
  plan : Plan
  status : Status
  deviceId : String
  maxDevices : Nat
  features : JwsFeatures
deriving DecidableEq, Repr

/-- Embeds `signLicenseJWS(p, ttlSec)` (license-sign.js lines 30-48): fails
when no private PEM is provisioned, otherwise signs a payload with
`iat = now` and `exp = now + ttlSec`.  Callers in server.js omit `ttlSec`,
which defaults to `DEFAULT_TTL_SEC`; the handler embeddings below pass
`DEFAULT_TTL_SEC` explicitly. -/
def signLicenseJWS (privatePem : Option PrivatePem) (p : SignInput)
    (ttlSec nowSec : Nat) : Except String Jws :=
  match privatePem with
  | none => .error "No hay PRIVATE PEM para firmar licencia"
  | some k =>
    let payload : JwsPayload :=
      { sub := "license:" ++ toString p.licenseId
        uid := p.userId
        plan := p.plan
        sta := p.status
        dev := p.deviceId
        max := p.maxDevices
        fea := p.features
        tok := p.token
        lic := p.licenseId
        ver := 1
        iat := nowSec
        exp := nowSec + ttlSec }
    .ok { payload := payload, sigKeyId := k.keyId, signedPayload := payload }

/-- Verification failures of `verifyLicenseJWS` (errors thrown by
`jwt.verify`): missing public PEM, bad signature, expired token. -/
inductive VerifyErr
  | noPublicPem
  | invalidSignature
  | tokenExpired
deriving DecidableEq, Repr

/-- Embeds `verifyLicenseJWS(jws)` (license-sign.js lines 51-54), i.e.
`jwt.verify(jws, PUBLIC_PEM, RS256)` at time `nowSec`: fails without a
public PEM; rejects a signature not produced with the matching private key
over this exact payload; rejects an expired token (jsonwebtoken throws
TokenExpiredError when the current time has reached `exp`); otherwise
returns the payload. -/
def verifyLicenseJWS (publicPem : Option PublicPem) (jws : Jws)
    (nowSec : Nat) : Except VerifyErr JwsPayload :=
  match publicPem with
  | none => .error .noPublicPem
  | some k =>
    if jws.sigKeyId ≠ k.keyId ∨ jws.signedPayload ≠ jws.payload then
      .error .invalidSignature
    else if jws.payload.exp ≤ nowSec then .error .tokenExpired
    else .ok jws.payload

/-- Error outcomes of the public validate/refresh endpoints (server.js
lines 467-572), one constructor per distinct rejection response. -/
inductive LicErr
  | missingParams
  | licenseNotFound
  | notActive (status : Status)
  | expired
  | deviceLimit (max : Nat)
  | deviceNotLinked
  | signError
deriving DecidableEq, Repr

/-- License summary included in the success response of validate/refresh
(server.js lines 508-514). -/
structure LicenseSummary where
  id : Nat
  plan : Plan
  status : Status
  expiresAt : JsDate
  devices : List String
deriving DecidableEq, Repr

/-- Success response of the validate/refresh endpoints. -/
structure ValidateResp where
  license_jws : Jws
  license : LicenseSummary
  offline_ttl_sec : Nat
deriving DecidableEq, Repr

/-- Embeds POST /public/license/validate (server.js lines 467-521):
look up the license by token; reject when not active, or when
`new Date(lic.expiresAt).getTime() < Date.now()`; bind the device when not
yet bound and quota allows (saving the license), else reject; finally sign
and return the JWS plus a license summary.  Returns the response together
with the resulting database state. -/
def validateHandler (db : List License) (privatePem : Option PrivatePem)
    (token deviceId : String) (now : JsDate) (nowSec : Nat) :
    Except LicErr ValidateResp × List License :=
  if token = "" ∨ deviceId = "" then (.error .missingParams, db)
  else
    match findByToken db token with
    | none => (.error .licenseNotFound, db)
    | some lic =>
      if lic.status ≠ Status.active then (.error (.notActive lic.status), db)
      else if JsDate.lt lic.expiresAt now then (.error .expired, db)
      else
        let max := limitForPlan lic.plan
        let set := jsNewSet lic.devices
        if ¬ set.contains deviceId ∧ max ≤ set.length then
          (.error (.deviceLimit max), db)
        else
          let lic2 := if set.contains deviceId then lic
                      else { lic with devices := set ++ [deviceId] }
          let db2 := if set.contains deviceId then db else updateDb db lic2
          match signLicenseJWS privatePem
              { userId := lic2.userId, licenseId := lic2.id, token := lic2.token,
                plan := lic2.plan, status := lic2.status, deviceId := deviceId,
                maxDevices := max, features := featuresOut lic2.features }
              DEFAULT_TTL_SEC nowSec with
          | .error _ => (.error .signError, db2)
          | .ok jws =>
            (.ok { license_jws := jws,
                   license := { id := lic2.id, plan := lic2.plan,
                                status := lic2.status, expiresAt := lic2.expiresAt,
                                devices := lic2.devices },
                   offline_ttl_sec := DEFAULT_TTL_SEC }, db2)

/-- Embeds POST /public/license/refresh (server.js lines 524-572): same
shape as validate but the device must already be bound
(`lic.devices.includes(deviceId)`) and no binding is attempted. -/
def refreshHandler (db : List License) (privatePem : Option PrivatePem)
    (token deviceId : String) (now : JsDate) (nowSec : Nat) :
    Except LicErr ValidateResp × List License :=
  if token = "" ∨ deviceId = "" then (.error .missingParams, db)
  else
    match findByToken db token with
    | none => (.error .licenseNotFound, db)
    | some lic =>
      if lic.status ≠ Status.active then (.error (.notActive lic.status), db)
      else if JsDate.lt lic.expiresAt now then (.error .expired, db)
      else if ¬ lic.devices.contains deviceId then (.error .deviceNotLinked, db)
      else
        let max := limitForPlan lic.plan
        match signLicenseJWS privatePem
            { userId := lic.userId, licenseId := lic.id, token := lic.token,
              plan := lic.plan, status := lic.status, deviceId := deviceId,
              maxDevices := max, features := featuresOut lic.features }
            DEFAULT_TTL_SEC nowSec with
        | .error _ => (.error .signError, db)
        | .ok jws =>
          (.ok { license_jws := jws,
                 license := { id := lic.id, plan := lic.plan,
                              status := lic.status, expiresAt := lic.expiresAt,
                              devices := lic.devices },
                 offline_ttl_sec := DEFAULT_TTL_SEC }, db)

/-- Embeds the Mercado Pago preapproval object as consumed by /webhook and
/return: its id, status string, and `external_reference` (the owning user
id, stored as a string by /subscribe and parsed back with `Number`). -/
structure Preapproval where
  id : String
  status : String
  external_reference : Option Nat
deriving DecidableEq, Repr

/-- Embeds the first webhook lookup (server.js lines 342-345):
`userId = pre?.external_reference ? Number(pre.external_reference) : null;
if (userId) lic = await License.findOne({ where: { userId } })`.  The JS
truthiness test skips the lookup when the parsed number is 0. -/
def lookupByUser (db : List License) (pre : Preapproval) : Option License :=
  match pre.external_reference with
  | some uid => if uid = 0 then none else db.find? (fun l => l.userId == uid)
  | none => none

/-- Embeds the fallback webhook lookup (server.js lines 346-349):
`License.findOne({ where: { mpPreapprovalId: pre.id } })`. -/
def lookupByPreapprovalId (db : List License) (pre : Preapproval) : Option License :=
  db.find? (fun l => l.mpPreapprovalId == some pre.id)

/-- Embeds the webhook license resolution (server.js lines 344-350): prefer
the external-reference lookup, fall back to the stored preapproval id. -/
def resolveWebhookLicense (db : List License) (pre : Preapproval) : Option License :=
  match lookupByUser db pre with
  | some lic => some lic
  | none => lookupByPreapprovalId db pre

/-- Embeds the authorized/active branch shared by /webhook (server.js lines
352-361) and the existing-license path of /return (lines 304-313): attempt
to cancel the old preapproval when a different one is bound (the `try`
around `cancelPreapproval` swallows any failure, so the outcome `cancelOk`
of the external call does not influence the result), rebind the incoming
preapproval id, set status active, advance the expiry one month, and assign
a fresh token only when none is present.  Returns the updated license and
the list of external cancellation attempts. -/
def applyAuthorized (pre : Preapproval) (now : JsDate) (nowMs rnd : Nat)
    (_cancelOk : Bool) (lic : License) : License × List String :=
  let cancels := match lic.mpPreapprovalId with
    | some old => if old ≠ pre.id then [old] else []
    | none => []
  ({ lic with
      mpPreapprovalId := some pre.id
      status := Status.active
      expiresAt := setMonthPlus1 now
      token := some (lic.token.getD (generateLicenseToken rnd nowMs)) },
   cancels)

/-- Embeds the preapproval branch of POST /webhook (server.js lines
340-367): resolve the target license (discarding the event when none
resolves), then dispatch on the preapproval status: authorized/active
activates via `applyAuthorized`; paused and cancelled set the
corresponding status; any other status leaves the state untouched.
Returns the database state and the external cancellation attempts. -/
def webhookPreapproval (db : List License) (pre : Preapproval) (now : JsDate)
    (nowMs rnd : Nat) (cancelOk : Bool) : List License × List String :=
  match resolveWebhookLicense db pre with
  | none => (db, [])
  | some lic =>
    if pre.status = "authorized" ∨ pre.status = "active" then
      let r := applyAuthorized pre now nowMs rnd cancelOk lic
      (updateDb db r.1, r.2)
    else if pre.status = "paused" then
      (updateDb db { lic with status := Status.paused }, [])
    else if pre.status = "cancelled" then
      (updateDb db { lic with status := Status.cancelled }, [])
    else (db, [])

/-- Embeds the existing-license part of GET /return (server.js lines
291-318) at the license level: on an authorized/active preapproval the
license is updated exactly as in the webhook's authorized branch;
on any other status the license is left untouched. -/
def returnFlowUpdate (pre : Preapproval) (now : JsDate) (nowMs rnd : Nat)
    (cancelOk : Bool) (lic : License) : License × List String :=
  if pre.status = "authorized" ∨ pre.status = "active" then
    applyAuthorized pre now nowMs rnd cancelOk lic
  else (lic, [])

/-- Embeds the existing-license branch of POST /subscribe (server.js lines
249-253): after creating a new external preapproval, the license row is
overwritten with `Object.assign(lic, { plan, status: "inactive",
mpPreapprovalId, expiresAt })` where the expiry is one day ahead (pending
window).  No cancellation of the previously bound preapproval appears in
this handler, hence the empty list of cancellation attempts. -/
def subscribeUpdate (plan : Plan) (mpPreapprovalId : String) (now : JsDate)
    (lic : License) : License × List String :=
  ({ lic with
      plan := plan
      status := Status.inactive
      mpPreapprovalId := some mpPreapprovalId
      expiresAt := setDatePlus1 now }, [])

/-- Outcome of the subscription-management endpoints (server.js lines
377-416). -/
inductive MgmtResult
  | notFound
  | externalError
  | ok
deriving DecidableEq, Repr

/-- Embeds POST /subscription/cancel (server.js lines 377-388): 404 when
the account has no license with a bound preapproval id; otherwise call the
external cancel and, only when it succeeds (`extOk`), set status cancelled
(a thrown external error reaches the catch block before the save). -/
def cancelHandler (licOpt : Option License) (extOk : Bool) :
    MgmtResult × Option License :=
  match licOpt with
  | none => (.notFound, none)
  | some lic =>
    match lic.mpPreapprovalId with
    | none => (.notFound, some lic)
    | some _ =>
      if extOk then (.ok, some { lic with status := Status.cancelled })
      else (.externalError, some lic)

/-- Embeds POST /subscription/pause (server.js lines 391-402), analogous to
cancel with status paused. -/
def pauseHandler (licOpt : Option License) (extOk : Bool) :
    MgmtResult × Option License :=
  match licOpt with
  | none => (.notFound, none)
  | some lic =>
    match lic.mpPreapprovalId with
    | none => (.notFound, some lic)
    | some _ =>
      if extOk then (.ok, some { lic with status := Status.paused })
      else (.externalError, some lic)

/-- Embeds POST /subscription/resume (server.js lines 405-416): 404 when
the account has no license with a bound preapproval id; otherwise call the
external resume and, when it succeeds, set status active.  The handler
consults only `mpPreapprovalId` — the stored status is never checked. -/
def resumeHandler (licOpt : Option License) (extOk : Bool) :
    MgmtResult × Option License :=
  match licOpt with
  | none => (.notFound, none)
  | some lic =>
    match lic.mpPreapprovalId with
    | none => (.notFound, some lic)
    | some _ =>
      if extOk then (.ok, some { lic with status := Status.active })
      else (.externalError, some lic)

/-- The operations of the server that read or modify a single license
record, each embedding the corresponding handler above; used to state
properties quantified over every operation. -/
inductive Op
  | webhookEvent (pre : Preapproval) (now : JsDate) (nowMs rnd : Nat) (cancelOk : Bool)
  | returnEvent (pre : Preapproval) (now : JsDate) (nowMs rnd : Nat) (cancelOk : Bool)
  | subscribeOp (plan : Plan) (newPreId : String) (now : JsDate)
  | attachOp (deviceId : String)
  | detachOp (deviceId : String)
  | cancelOp (extOk : Bool)
  | pauseOp (extOk : Bool)
  | resumeOp (extOk : Bool)

/-- Effect of each operation on one license record (the license-level
projection of the handlers above; `detachOp` embeds the filter of
POST /license/devices/detach, server.js line 205). -/
def applyOp (op : Op) (lic : License) : License :=
  match op with
  | .webhookEvent pre now nowMs rnd ok =>
    if pre.status = "authorized" ∨ pre.status = "active" then
      (applyAuthorized pre now nowMs rnd ok lic).1
    else if pre.status = "paused" then { lic with status := Status.paused }
    else if pre.status = "cancelled" then { lic with status := Status.cancelled }
    else lic
  | .returnEvent pre now nowMs rnd ok => (returnFlowUpdate pre now nowMs rnd ok lic).1
  | .subscribeOp plan newId now => (subscribeUpdate plan newId now lic).1
  | .attachOp d =>
    match attachToLicense lic d with
    | .ok l2 => l2
    | _ => lic
  | .detachOp d => { lic with devices := lic.devices.filter (fun x => x ≠ d) }
  | .cancelOp ok => ((cancelHandler (some lic) ok).2).getD lic
  | .pauseOp ok => ((pauseHandler (some lic) ok).2).getD lic
  | .resumeOp ok => ((resumeHandler (some lic) ok).2).getD lic

/-- Boolean success test on a validate/refresh response. -/
def respIsOk : Except LicErr ValidateResp → Bool
  | .ok _ => true
  | .error _ => false

/-- A generated license token is never the empty string: it always starts
with the literal "VS-". -/
theorem generateLicenseToken_ne_empty (rnd nowMs : Nat) :
    generateLicenseToken rnd nowMs ≠ "" := by
  intro h
  have h1 : (generateLicenseToken rnd nowMs).length = 0 := by rw [h]; rfl
  simp [generateLicenseToken, String.length_append] at h1
  exact absurd h1.1.1.1 (by decide)

/-- Sample calendar date used in concrete instantiations. -/
def dSample : JsDate := { year := 2026, month := 0, day := 15, msOfDay := 0 }

/-- Concrete active license whose expiry equals `dSample`, with device
DEV-A already bound. -/
def licC1 : License :=
  { id := 1, userId := 11, token := some "T-C1", plan := Plan.single,
    status := Status.active, expiresAt := dSample, devices := ["DEV-A"],
    mpPreapprovalId := some "mp-1", features := { whatsapp_bot := false, ai_cameras := false } }

/-- Concrete paused license. -/
def licC1p : License :=
  { id := 2, userId := 12, token := some "T-P1", plan := Plan.single,
    status := Status.paused, expiresAt := dSample, devices := ["DEV-A"],
    mpPreapprovalId := some "mp-2", features := { whatsapp_bot := false, ai_cameras := false } }

/-- C1 counterexample: at the exact instant `now = expiresAt` (so
`expiresAt ≤ now` holds), validation of an active license with a bound
device succeeds, because the code rejects only when
`new Date(lic.expiresAt).getTime() < Date.now()` holds strictly.  This
refutes the claim that a license with `expiresAt ≤ now` always fails
validation. -/
theorem validate_at_expiry_instant_succeeds :
    licC1.status = Status.active ∧ licC1.expiresAt = dSample ∧
    JsDate.lt licC1.expiresAt dSample = false ∧
    respIsOk (validateHandler [licC1] (some { keyId := 0 }) "T-C1" "DEV-A" dSample 0).1 = true ∧
    respIsOk (refreshHandler [licC1] (some { keyId := 0 }) "T-C1" "DEV-A" dSample 0).1 = true := by
  refine ⟨rfl, rfl, rfl, ?_, ?_⟩ <;> rfl

/-- C1 (amended): a license is usable only if `status == active` and
`now ≤ expiresAt`; a license with `status != active` or with
`expiresAt < now` always fails validation and refresh, regardless of
device binding state, and the rejection reason names the actual cause
(`notActive` carrying the stored status, or `expired`). -/
theorem validate_reject_reasons (db : List License) (priv : Option PrivatePem)
    (tok dev : String) (now : JsDate) (nowSec : Nat) (lic : License)
    (htok : tok ≠ "") (hdev : dev ≠ "")
    (hfind : findByToken db tok = some lic) :
    (lic.status ≠ Status.active →
      (validateHandler db priv tok dev now nowSec).1 = Except.error (LicErr.notActive lic.status) ∧
      (refreshHandler db priv tok dev now nowSec).1 = Except.error (LicErr.notActive lic.status)) ∧
    (lic.status = Status.active → JsDate.lt lic.expiresAt now = true →
      (validateHandler db priv tok dev now nowSec).1 = Except.error LicErr.expired ∧
      (refreshHandler db priv tok dev now nowSec).1 = Except.error LicErr.expired) ∧
    (∀ r, (validateHandler db priv tok dev now nowSec).1 = Except.ok r →
      lic.status = Status.active ∧ JsDate.lt lic.expiresAt now = false) ∧
    (∀ r, (refreshHandler db priv tok dev now nowSec).1 = Except.ok r →
      lic.status = Status.active ∧ JsDate.lt lic.expiresAt now = false) := by
  refine ⟨?_, ?_, ?_, ?_⟩
  · intro hst
    constructor <;> simp [validateHandler, refreshHandler, htok, hdev, hfind, hst]
  · intro hst hexp
    constructor <;> simp [validateHandler, refreshHandler, htok, hdev, hfind, hst, hexp]
  · intro r hr
    by_cases h1 : lic.status = Status.active
    · refine ⟨h1, ?_⟩
      by_cases h2 : JsDate.lt lic.expiresAt now = true
      · exfalso; simp [validateHandler, htok, hdev, hfind, h1, h2] at hr
      · simpa using h2
    · exfalso; simp [validateHandler, htok, hdev, hfind, h1] at hr
  · intro r hr
    by_cases h1 : lic.status = Status.active
    · refine ⟨h1, ?_⟩
      by_cases h2 : JsDate.lt lic.expiresAt now = true
      · exfalso; simp [refreshHandler, htok, hdev, hfind, h1, h2] at hr
      · simpa using h2
    · exfalso; simp [refreshHandler, htok, hdev, hfind, h1] at hr

/-- C1 witness: a paused license fails validation and refresh with the
`notActive` reason carrying its stored status. -/
theorem validate_reject_reasons_witness :
    (validateHandler [licC1p] none "T-P1" "DEV-A" dSample 0).1 =
      Except.error (LicErr.notActive Status.paused) ∧
    (refreshHandler [licC1p] none "T-P1" "DEV-A" dSample 0).1 =
      Except.error (LicErr.notActive Status.paused) :=
  (validate_reject_reasons [licC1p] none "T-P1" "DEV-A" dSample 0 licC1p
    (by decide) (by decide) (by decide)).1 (by decide)

/-- Concrete license with a bound preapproval id, for the subscribe
counterexample. -/
def licC2 : License :=
  { id := 3, userId := 13, token := some "T-C2", plan := Plan.single,
    status := Status.active, expiresAt := dSample, devices := [],
    mpPreapprovalId := some "mp-old2", features := { whatsapp_bot := false, ai_cameras := false } }

/-- Concrete license used by the C2 witness. -/
def licC2w : License :=
  { id := 4, userId := 14, token := some "T-C2w", plan := Plan.multi,
    status := Status.active, expiresAt := dSample, devices := [],
    mpPreapprovalId := some "mp-oldw", features := { whatsapp_bot := false, ai_cameras := false } }

/-- Authorized preapproval used by C2. -/
def preC2 : Preapproval :=
  { id := "mp-new", status := "authorized", external_reference := some 14 }

/-- C2 counterexample: the subscribe handler binds a new external
subscription ref ("mp-new2") to a license whose bound ref is the different
"mp-old2" without attempting any cancellation of the old subscription
(empty list of external cancel attempts), so not every rebinding operation
attempts the cancellation. -/
theorem subscribe_rebinds_without_cancel :
    licC2.mpPreapprovalId = some "mp-old2" ∧
    (subscribeUpdate Plan.single "mp-new2" dSample licC2).1.mpPreapprovalId = some "mp-new2" ∧
    (subscribeUpdate Plan.single "mp-new2" dSample licC2).2 = [] := by
  refine ⟨rfl, rfl, rfl⟩

/-- C2 (amended): the webhook/return rebinds (the authorized-event branch)
attempt to cancel the old external subscription exactly when a different
one is bound, and proceed to rebind with a result independent of whether
that cancellation succeeds; the subscribe handler, by contrast, rebinds a
new ref without attempting any cancellation. -/
theorem rebind_cancel_best_effort (pre : Preapproval) (now : JsDate)
    (nowMs rnd : Nat) (lic : License) (old : String)
    (hold : lic.mpPreapprovalId = some old) (hne : old ≠ pre.id) :
    (∀ ok, (applyAuthorized pre now nowMs rnd ok lic).2 = [old]) ∧
    (∀ ok1 ok2, applyAuthorized pre now nowMs rnd ok1 lic =
      applyAuthorized pre now nowMs rnd ok2 lic) ∧
    (∀ ok, (applyAuthorized pre now nowMs rnd ok lic).1.mpPreapprovalId = some pre.id) ∧
    (∀ plan newId, (subscribeUpdate plan newId now lic).2 = [] ∧
      (subscribeUpdate plan newId now lic).1.mpPreapprovalId = some newId) := by
  refine ⟨?_, ?_, ?_, ?_⟩ <;> intros <;>
    simp [applyAuthorized, subscribeUpdate, hold, hne]

/-- C2 witness: concrete rebind with a different old ref attempts to cancel
exactly that ref, the result does not depend on the cancellation outcome,
and a concrete subscribe rebind attempts no cancellation. -/
theorem rebind_cancel_best_effort_witness :
    (applyAuthorized preC2 dSample 0 0 true licC2w).2 = ["mp-oldw"] ∧
    applyAuthorized preC2 dSample 0 0 true licC2w =
      applyAuthorized preC2 dSample 0 0 false licC2w ∧
    (subscribeUpdate Plan.multi "mp-n2" dSample licC2w).2 = [] := by
  have h := rebind_cancel_best_effort preC2 dSample 0 0 licC2w "mp-oldw" rfl (by decide)
  exact ⟨h.1 true, h.2.1 true false, (h.2.2.2 Plan.multi "mp-n2").1⟩

/-- The spec scenario license for C3: single plan, inactive, no devices,
no token. -/
def licC3 : License :=
  { id := 5, userId := 3, token := none, plan := Plan.single,
    status := Status.inactive, expiresAt := dSample, devices := [],
    mpPreapprovalId := some "mp-pend3", features := { whatsapp_bot := false, ai_cameras := false } }

/-- Authorized preapproval addressed to licC3's owner. -/
def preC3 : Preapproval :=
  { id := "mp-new3", status := "authorized", external_reference := some 3 }

/-- C3: an external authorized/active event on a resolved license (in any
state) yields status active, binds the event's preapproval id, sets the
expiry to one month from now, leaves the devices unchanged, keeps an
existing token, and assigns a non-empty fresh token when none was
assigned; the return flow applies the same update. -/
theorem authorized_event_activates (db : List License) (pre : Preapproval)
    (now : JsDate) (nowMs rnd : Nat) (ok : Bool) (lic : License)
    (hres : resolveWebhookLicense db pre = some lic)
    (hst : pre.status = "authorized" ∨ pre.status = "active") :
    webhookPreapproval db pre now nowMs rnd ok =
      (updateDb db (applyAuthorized pre now nowMs rnd ok lic).1,
       (applyAuthorized pre now nowMs rnd ok lic).2) ∧
    (applyAuthorized pre now nowMs rnd ok lic).1.status = Status.active ∧
    (applyAuthorized pre now nowMs rnd ok lic).1.mpPreapprovalId = some pre.id ∧
    (applyAuthorized pre now nowMs rnd ok lic).1.expiresAt = setMonthPlus1 now ∧
    (applyAuthorized pre now nowMs rnd ok lic).1.devices = lic.devices ∧
    (∀ t, lic.token = some t →
      (applyAuthorized pre now nowMs rnd ok lic).1.token = some t) ∧
    (lic.token = none →
      (applyAuthorized pre now nowMs rnd ok lic).1.token =
        some (generateLicenseToken rnd nowMs) ∧ generateLicenseToken rnd nowMs ≠ "") ∧
    (returnFlowUpdate pre now nowMs rnd ok lic).1 =
      (applyAuthorized pre now nowMs rnd ok lic).1 := by
  refine ⟨?_, rfl, rfl, rfl, rfl, ?_, ?_, ?_⟩
  · unfold webhookPreapproval
    rw [hres]
    simp [if_pos hst]
  · intro t ht
    simp [applyAuthorized, ht]
  · intro ht
    exact ⟨by simp [applyAuthorized, ht], generateLicenseToken_ne_empty rnd nowMs⟩
  · simp [returnFlowUpdate, if_pos hst]

/-- C3 witness: the spec scenario — an inactive single-plan license with no
devices receives an authorized event and the webhook produces the activated
license with a fresh token and unchanged (empty) devices. -/
theorem authorized_event_activates_witness :
    webhookPreapproval [licC3] preC3 dSample 999 42 true =
      (updateDb [licC3] (applyAuthorized preC3 dSample 999 42 true licC3).1,
       (applyAuthorized preC3 dSample 999 42 true licC3).2) ∧
    (applyAuthorized preC3 dSample 999 42 true licC3).1.status = Status.active ∧
    (applyAuthorized preC3 dSample 999 42 true licC3).1.devices = licC3.devices ∧
    (applyAuthorized preC3 dSample 999 42 true licC3).1.token =
      some (generateLicenseToken 42 999) := by
  have h := authorized_event_activates [licC3] preC3 dSample 999 42 true licC3
    (by decide) (Or.inl rfl)
  exact ⟨h.1, h.2.1, h.2.2.2.2.1, (h.2.2.2.2.2.2.1 rfl).1⟩

/-- Active single-plan license with a full device set, for the C4 witness. -/
def licC4 : License :=
  { id := 6, userId := 16, token := some "T-C4", plan := Plan.single,
    status := Status.active, expiresAt := dSample, devices := ["A"],
    mpPreapprovalId := some "mp-4", features := { whatsapp_bot := false, ai_cameras := false } }

/-- C4: quota(single) = 1 and quota(multi) = 3; attaching a device that is
not already bound fails with the quota error whenever the device set has
reached the plan quota, and the database is left unchanged (no partial
mutation of `devices`). -/
theorem quota_limits_and_attach_failure (db : List License) (uid : Nat)
    (dev : String) (lic : License)
    (hdev : dev ≠ "")
    (hfind : findOneActive db uid = some lic)
    (hnew : (jsNewSet lic.devices).contains dev = false)
    (hfull : limitForPlan lic.plan ≤ (jsNewSet lic.devices).length) :
    limitForPlan Plan.single = 1 ∧ limitForPlan Plan.multi = 3 ∧
    attachHandler db uid dev = (AttachOutcome.quotaExceeded (limitForPlan lic.plan), db) ∧
    attachToLicense lic dev = AttachOutcome.quotaExceeded (limitForPlan lic.plan) := by
  have hnew2 : dev ∉ jsNewSet lic.devices := by simpa using hnew
  refine ⟨rfl, rfl, ?_, ?_⟩
  · simp [attachHandler, hdev, hfind, hnew2, hfull]
  · simp [attachToLicense, hnew2, hfull]

/-- C4 witness: the spec scenario — devices = ["A"], plan single, attaching
"B" fails with the quota error and the database is unchanged. -/
theorem quota_limits_and_attach_failure_witness :
    attachHandler [licC4] 16 "B" = (AttachOutcome.quotaExceeded 1, [licC4]) ∧
    attachToLicense licC4 "B" = AttachOutcome.quotaExceeded 1 :=
  ⟨(quota_limits_and_attach_failure [licC4] 16 "B" licC4 (by decide) (by decide)
      (by decide) (by decide)).2.2.1,
   (quota_limits_and_attach_failure [licC4] 16 "B" licC4 (by decide) (by decide)
      (by decide) (by decide)).2.2.2⟩

/-- Concrete license with an assigned token, for the C5 witness. -/
def licC5 : License :=
  { id := 7, userId := 17, token := some "TOK5", plan := Plan.multi,
    status := Status.paused, expiresAt := dSample, devices := ["A", "B"],
    mpPreapprovalId := some "mp-5", features := { whatsapp_bot := true, ai_cameras := false } }

/-- C5: the license token is immutable once assigned — no operation of the
server (external events, re-subscription, rebinding, device management,
subscription management) ever changes an assigned token. -/
theorem token_immutable_once_assigned (op : Op) (lic : License) (t : String)
    (h : lic.token = some t) : (applyOp op lic).token = some t := by
  cases op with
  | webhookEvent pre now nowMs rnd ok =>
    simp only [applyOp]
    split
    · simp [applyAuthorized, h]
    · split
      · simpa using h
      · split
        · simpa using h
        · exact h
  | returnEvent pre now nowMs rnd ok =>
    simp only [applyOp, returnFlowUpdate]
    split
    · simp [applyAuthorized, h]
    · exact h
  | subscribeOp plan newId now => simpa [applyOp, subscribeUpdate] using h
  | attachOp d =>
    simp only [applyOp, attachToLicense]
    split_ifs <;> simp [h]
  | detachOp d => simpa [applyOp] using h
  | cancelOp ok =>
    cases hmp : lic.mpPreapprovalId <;> cases ok <;>
      simp [applyOp, cancelHandler, hmp, h]
  | pauseOp ok =>
    cases hmp : lic.mpPreapprovalId <;> cases ok <;>
      simp [applyOp, pauseHandler, hmp, h]
  | resumeOp ok =>
    cases hmp : lic.mpPreapprovalId <;> cases ok <;>
      simp [applyOp, resumeHandler, hmp, h]

/-- C5 witness: a re-delivered authorized event on a license that already
has token "TOK5" leaves the token unchanged. -/
theorem token_immutable_once_assigned_witness :
    (applyOp (Op.webhookEvent preC2 dSample 5 6 true) licC5).token = some "TOK5" :=
  token_immutable_once_assigned (Op.webhookEvent preC2 dSample 5 6 true) licC5 "TOK5" rfl

/-- Concrete cancelled license with a bound preapproval id, for the C6
counterexample. -/
def licC6 : License :=
  { id := 8, userId := 18, token := some "TOK6", plan := Plan.single,
    status := Status.cancelled, expiresAt := dSample, devices := [],
    mpPreapprovalId := some "mp-old6", features := { whatsapp_bot := false, ai_cameras := false } }

/-- Concrete paused license with a bound preapproval id, for the C6
witness. -/
def licC6w : License :=
  { id := 9, userId := 19, token := some "TOK6w", plan := Plan.single,
    status := Status.paused, expiresAt := dSample, devices := [],
    mpPreapprovalId := some "mp-w6", features := { whatsapp_bot := false, ai_cameras := false } }

/-- C6 counterexample: the resume handler never inspects the stored status,
so a cancelled license with a bound preapproval id becomes active through a
direct resume request when the external resume call succeeds — refuting the
claim that a cancelled license never becomes active via a direct resume. -/
theorem resume_activates_cancelled_license :
    licC6.status = Status.cancelled ∧
    resumeHandler (some licC6) true =
      (MgmtResult.ok, some { licC6 with status := Status.active }) := by
  exact ⟨rfl, rfl⟩

/-- C6 (amended): an explicit resume request sets the status of the
account's license to active whenever a preapproval id is bound and the
external resume call succeeds, regardless of the prior status (paused,
cancelled, inactive or active alike); when the external call fails the
license is unchanged. -/
theorem resume_sets_active_regardless_of_status (lic : License) (r : String)
    (h : lic.mpPreapprovalId = some r) :
    resumeHandler (some lic) true =
      (MgmtResult.ok, some { lic with status := Status.active }) ∧
    resumeHandler (some lic) false = (MgmtResult.externalError, some lic) := by
  simp [resumeHandler, h]

/-- C6 witness: a paused license with a bound preapproval id resumes to
active on external success and is untouched on external failure. -/
theorem resume_sets_active_regardless_of_status_witness :
    resumeHandler (some licC6w) true =
      (MgmtResult.ok, some { licC6w with status := Status.active }) ∧
    resumeHandler (some licC6w) false = (MgmtResult.externalError, some licC6w) :=
  resume_sets_active_regardless_of_status licC6w "mp-w6" rfl

/-- Concrete license owned by account 9 with a bound preapproval, for the
C7 witness. -/
def licC7 : License :=
  { id := 10, userId := 9, token := some "T-C7", plan := Plan.single,
    status := Status.active, expiresAt := dSample, devices := [],
    mpPreapprovalId := some "mp-c7", features := { whatsapp_bot := false, ai_cameras := false } }

/-- Preapproval whose external reference maps to licC7's owner. -/
def preC7 : Preapproval :=
  { id := "mp-other", status := "authorized", external_reference := some 9 }

/-- Preapproval resolving to no license of the C7 database. -/
def preC7n : Preapproval :=
  { id := "mp-unknown", status := "authorized", external_reference := none }

/-- C7: webhook target resolution prefers the lookup by the event's
external reference; only when that lookup yields nothing does the stored
preapproval id lookup run; and when neither resolves a license, the event
is discarded as a no-op (database unchanged, no external calls). -/
theorem webhook_resolution_order (db : List License) (pre : Preapproval)
    (now : JsDate) (nowMs rnd : Nat) (ok : Bool) :
    (∀ lic, lookupByUser db pre = some lic →
      resolveWebhookLicense db pre = some lic) ∧
    (lookupByUser db pre = none →
      resolveWebhookLicense db pre = lookupByPreapprovalId db pre) ∧
    (resolveWebhookLicense db pre = none →
      webhookPreapproval db pre now nowMs rnd ok = (db, [])) := by
  refine ⟨?_, ?_, ?_⟩
  · intro lic h; simp [resolveWebhookLicense, h]
  · intro h; simp [resolveWebhookLicense, h]
  · intro h; simp [webhookPreapproval, h]

/-- C7 witness: the reference lookup resolves licC7 directly, and an event
resolving no license leaves the database unchanged with no cancellations. -/
theorem webhook_resolution_order_witness :
    resolveWebhookLicense [licC7] preC7 = some licC7 ∧
    webhookPreapproval [licC7] preC7n dSample 0 0 true = ([licC7], []) :=
  ⟨(webhook_resolution_order [licC7] preC7 dSample 0 0 true).1 licC7 (by decide),
   (webhook_resolution_order [licC7] preC7n dSample 0 0 true).2.2 (by decide)⟩

/-- Concrete signing input for the C8 witness. -/
def signInputW : SignInput :=
  { userId := 17, licenseId := 7, token := some "TOK5", plan := Plan.multi,
    status := Status.active, deviceId := "A", maxDevices := 3,
    features := { sync := true, whatsapp_bot := true, ai_cameras := false } }

/-- C8: an assertion issued by the signing authority carries
`iat = now` and `exp = now + ttl` (with the default ttl equal to 72 hours),
verifies successfully under the matching public key at any time strictly
before its expiry, and fails verification (as expired) at any time after
its expiry. -/
theorem assertion_time_bounds (k : Nat) (p : SignInput) (ttl t0 t : Nat)
    (jws : Jws)
    (hsign : signLicenseJWS (some { keyId := k }) p ttl t0 = Except.ok jws) :
    jws.payload.iat = t0 ∧ jws.payload.exp = t0 + ttl ∧
    DEFAULT_TTL_SEC = 72 * 3600 ∧
    (t < t0 + ttl →
      verifyLicenseJWS (some { keyId := k }) jws t = Except.ok jws.payload) ∧
    (t0 + ttl < t →
      verifyLicenseJWS (some { keyId := k }) jws t = Except.error VerifyErr.tokenExpired) := by
  simp only [signLicenseJWS, Except.ok.injEq] at hsign
  subst hsign
  refine ⟨rfl, rfl, rfl, ?_, ?_⟩
  · intro hlt
    simp only [verifyLicenseJWS]
    rw [if_neg (by simp), if_neg (by omega)]
  · intro hgt
    simp only [verifyLicenseJWS]
    rw [if_neg (by simp), if_pos (by omega)]

/-- The JWS produced by signing `signInputW` at time 100 with ttl 10 under
key 1. -/
def jwsW : Jws :=
  { payload :=
      { sub := "license:7", uid := 17, plan := Plan.multi, sta := Status.active,
        dev := "A", max := 3,
        fea := { sync := true, whatsapp_bot := true, ai_cameras := false },
        tok := some "TOK5", lic := 7, ver := 1, iat := 100, exp := 110 }
    sigKeyId := 1
    signedPayload :=
      { sub := "license:7", uid := 17, plan := Plan.multi, sta := Status.active,
        dev := "A", max := 3,
        fea := { sync := true, whatsapp_bot := true, ai_cameras := false },
        tok := some "TOK5", lic := 7, ver := 1, iat := 100, exp := 110 } }

/-- C8 witness: a concrete assertion signed at time 100 with ttl 10
verifies at time 105 and fails as expired at time 111. -/
theorem assertion_time_bounds_witness :
    verifyLicenseJWS (some { keyId := 1 }) jwsW 105 = Except.ok jwsW.payload ∧
    verifyLicenseJWS (some { keyId := 1 }) jwsW 111 = Except.error VerifyErr.tokenExpired :=
  ⟨(assertion_time_bounds 1 signInputW 10 100 105 jwsW rfl).2.2.2.1 (by omega),
   (assertion_time_bounds 1 signInputW 10 100 111 jwsW rfl).2.2.2.2 (by omega)⟩

/-- Active single-plan license with its quota already full by device "A",
for the C9 witness. -/
def licC9 : License :=
  { id := 11, userId := 21, token := some "T-C9", plan := Plan.single,
    status := Status.active, expiresAt := dSample, devices := ["A"],
    mpPreapprovalId := some "mp-9", features := { whatsapp_bot := false, ai_cameras := false } }

/-- C9: attach is idempotent — attaching a device already in the license's
device set returns the license unchanged without error, regardless of
whether the quota is already full, and the attach endpoint leaves the
database untouched in that case. -/
theorem attach_idempotent_on_bound_device (lic : License) (dev : String)
    (h : (jsNewSet lic.devices).contains dev = true) :
    attachToLicense lic dev = AttachOutcome.ok lic ∧
    (∀ db uid, findOneActive db uid = some lic → dev ≠ "" →
      attachHandler db uid dev = (AttachOutcome.ok lic, db)) := by
  have h2 : dev ∈ jsNewSet lic.devices := by simpa using h
  constructor
  · simp [attachToLicense, h2]
  · intro db uid hfind hdev
    simp [attachHandler, hdev, hfind, h2]

/-- C9 witness: attaching the already-bound device "A" to a single-plan
license whose quota is full succeeds with the unchanged license and leaves
the database untouched. -/
theorem attach_idempotent_on_bound_device_witness :
    attachToLicense licC9 "A" = AttachOutcome.ok licC9 ∧
    attachHandler [licC9] 21 "A" = (AttachOutcome.ok licC9, [licC9]) := by
  have h := attach_idempotent_on_bound_device licC9 "A" (by decide)
  exact ⟨h.1, h.2 [licC9] 21 (by decide) (by decide)⟩

/-- Inactive license with spare quota owned by account 22, for the C10
witness. -/
def licC10 : License :=
  { id := 12, userId := 22, token := some "T-C10", plan := Plan.multi,
    status := Status.inactive, expiresAt := dSample, devices := [],
    mpPreapprovalId := some "mp-10", features := { whatsapp_bot := false, ai_cameras := false } }

/-- C10: the account-authenticated attach succeeds only against a license
with status active — when the account owns no active license (even if it
owns inactive, paused or cancelled licenses with spare quota), the attach
fails with the not-found outcome and the database is unchanged. -/
theorem attach_requires_active_license (db : List License) (uid : Nat)
    (dev : String) (hdev : dev ≠ "")
    (h : ∀ lic ∈ db, lic.userId = uid → lic.status ≠ Status.active) :
    attachHandler db uid dev = (AttachOutcome.noActiveLicense, db) := by
  have hfind : findOneActive db uid = none := by
    apply List.find?_eq_none.mpr
    intro x hx hpx
    rw [Bool.and_eq_true, beq_iff_eq, beq_iff_eq] at hpx
    exact h x hx hpx.1 hpx.2
  simp [attachHandler, hdev, hfind]

/-- C10 witness: an account owning only an inactive multi-plan license with
an empty device set gets the not-found outcome and no state change. -/
theorem attach_requires_active_license_witness :
    attachHandler [licC10] 22 "D" = (AttachOutcome.noActiveLicense, [licC10]) :=
  attach_requires_active_license [licC10] 22 "D" (by decide) (by decide)

end PanelBackend
